import Mathlib

/-!
Shallow embedding of the Citadel key-server request pipeline
(`src/citadel/src/keys.rs`, `src/citadel/src/session_login.rs`,
`src/citadel/src/errors.rs`, `src/citadel/src/lib.rs`).

External collaborators (chain RPC, signature primitives, the JWT library,
the base64/BCS codecs) are modelled at their interface boundary as fields
of the `AppState` environment, following the spec's scoping (sections 1
and 6).  Modules declared in `lib.rs` but absent from the sources
(`valid_ptb.rs`, `signed_message.rs`, `externals.rs`) are modelled from
the spec; their definitions carry a doc comment saying so.
-/

namespace Citadel

/-- Byte strings (Rust `Vec<u8>`); byte values are Nats below 256. -/
abbrev Bytes := List Nat

/-- Key identifier, `type KeyId = Vec<u8>` in `keys.rs`. -/
abbrev KeyId := Bytes

/-- Opaque identifier for an application-level game profile; the profile
subsystem is out of scope (spec section 1) and only its presence matters
here. -/
abbrev Profile := Nat

/-- Error enum of `errors.rs` (`InternalError`). -/
inductive InternalError where
  | InvalidPTB
  | InvalidPackage
  | NoAccess
  | OldPackageVersion
  | InvalidSignature
  | InvalidSessionSignature
  | InvalidCertificate
  | Failure
  | SuiClientNotFresh
  | InvalidInput
  | DecryptionError
  | SerializationError
  | InvalidToken
  | ExpiredToken
  | MissingAuthToken
  | InvalidAuthHeader
  | Unauthorized
  deriving DecidableEq, Repr

/-- HTTP status code each error maps to in `InternalError::into_response`
(`errors.rs`). -/
def statusCode : InternalError → Nat
  | .InvalidPTB => 403
  | .InvalidPackage => 403
  | .NoAccess => 403
  | .InvalidCertificate => 403
  | .OldPackageVersion => 403
  | .InvalidSignature => 403
  | .InvalidSessionSignature => 403
  | .Failure => 503
  | .SuiClientNotFresh => 403
  | .InvalidInput => 403
  | .DecryptionError => 403
  | .InvalidToken => 401
  | .ExpiredToken => 401
  | .MissingAuthToken => 401
  | .InvalidAuthHeader => 401
  | .Unauthorized => 403
  | .SerializationError => 403

/-- Maximum session key ttl in minutes (`keys.rs`, `SESSION_KEY_TTL_MAX`). -/
def SESSION_KEY_TTL_MAX : Nat := 10

/-- Allowed full-node staleness in milliseconds (`keys.rs` and
`session_login.rs`, `ALLOWED_STALENESS`). -/
def ALLOWED_STALENESS_MS : Nat := 120000

/-- Decoded programmable transaction block, modelled at the granularity the
validator inspects: the move-call target package (raw bytes and its hex
string form), module and function names, the leading identity byte-string
arguments, and a flag recording whether the remaining shape constraints of
the strict schema hold (exactly one move-call command, fixed-length
identities, well-formed encoding). -/
structure Ptb where
  pkgId : Bytes
  pkgStr : String
  moduleName : String
  funcName : String
  idArgs : List Bytes
  shapeOk : Bool
  deriving DecidableEq, Repr

/-- Modelled from the spec: `valid_ptb.rs` is declared in `lib.rs` but not
present under the sources.  Per spec section 4.1 a `ValidPtb` exposes the
target contract address, the identity arguments and the fully qualified
function name of the single recognised move call. -/
structure ValidPtb where
  pkgId : Bytes
  innerIds : List Bytes
  fullFunction : String
  deriving DecidableEq, Repr

/-- Modelled from the spec: `ValidPtb::try_from` accepts exactly the single
recognised shape — one move call whose function name carries the
whitelisted `seal_approve` pattern and whose arguments begin with one or
more identity byte strings; every other shape (zero identity arguments,
any malformed shape) is the typed error `InvalidPTB`; the validator is
pure and total (spec section 4.1). -/
def ValidPtb.tryFrom (p : Ptb) : Except InternalError ValidPtb :=
  if p.shapeOk = true ∧ List.isPrefixOf "seal_approve".toList p.funcName.toList = true
      ∧ p.idArgs ≠ [] then
    .ok ⟨p.pkgId, p.idArgs, p.pkgStr ++ "::" ++ p.moduleName ++ "::" ++ p.funcName⟩
  else
    .error .InvalidPTB

/-- Modelled from the spec: the full key identifier is the first deployed
package id concatenated with the raw identity bytes (spec section 3,
`KeyId = namespace_prefix ++ identity_arg`). -/
def ValidPtb.full_ids (vp : ValidPtb) (first_pkg_id : Bytes) : List KeyId :=
  vp.innerIds.map (fun id => first_pkg_id ++ id)

/-- Modelled from the spec: `signed_message.rs` is not present under the
sources.  Spec section 4.2: the wallet-signed canonical message is built
from the first deployed contract address, the session verification key,
the creation time and the ttl. -/
structure SignedMsg where
  pkgId : Bytes
  sessionVk : Bytes
  creationTime : Nat
  ttlMin : Nat
  deriving DecidableEq

/-- Modelled from the spec: `signed_message(pkg_id, session_vk,
creation_time, ttl_min)` forms the canonical wallet message. -/
def signed_message (pkgId : Bytes) (vk : Bytes) (creationTime ttlMin : Nat) :
    SignedMsg :=
  ⟨pkgId, vk, creationTime, ttlMin⟩

/-- Modelled from the spec: the session-signed canonical message is built
from the transaction block and the two ElGamal keys (spec section 4.2). -/
structure SignedReq where
  ptb : Ptb
  encKey : Bytes
  encVerificationKey : Bytes
  deriving DecidableEq

/-- Modelled from the spec: `signed_request(ptb, enc_key,
enc_verification_key)` forms the canonical session message. -/
def signed_request (ptb : Ptb) (encKey encVk : Bytes) : SignedReq :=
  ⟨ptb, encKey, encVk⟩

/-- Session certificate (`keys.rs`, struct `Certificate`). -/
structure Certificate where
  user : Nat
  session_vk : Bytes
  creation_time : Nat
  ttl_min : Nat
  signature : Bytes
  deriving DecidableEq, Repr

/-- Result of the full node's dry-run RPC, modelled at the interface the
policy evaluator inspects: whether `effects.status()` reports an error. -/
structure DryRunRes where
  statusIsErr : Bool
  deriving DecidableEq, Repr

/-- JWT claims (`session_login.rs`, struct `TokenClaims`). -/
structure TokenClaims where
  iss : String
  sub : String
  exp : Nat
  iat : Nat
  profile : Option Profile
  user_address : Nat
  session_vk : String
  creation_time : Nat
  ttl_min : Nat
  deriving DecidableEq, Repr

/-- Symbolic model of an HS256 JWT as produced by the `jsonwebtoken`
library: the token determines the signing secret and the claims. -/
structure Jwt where
  secret : Bytes
  claims : TokenClaims
  deriving DecidableEq, Repr

/-- Symbolic model of `jsonwebtoken::encode`. -/
def jwtEncode (secret : Bytes) (claims : TokenClaims) : Jwt := ⟨secret, claims⟩

/-- Default expiry leeway in seconds of the `jsonwebtoken` library's
`Validation`. -/
def JWT_LEEWAY : Nat := 60

/-- Symbolic model of `jsonwebtoken::decode` with issuer validation and
expiry validation: decoding succeeds exactly when the token was signed
with the same secret, the issuer matches, and (when expiry is validated)
the expiry lies no further than the leeway before the decode-time clock. -/
def jwtDecode (nowSecs : Nat) (secret : Bytes) (requiredIss : String)
    (validateExp : Bool) (t : Jwt) : Option TokenClaims :=
  if t.secret = secret ∧ t.claims.iss = requiredIss ∧
      (validateExp = true → nowSecs ≤ t.claims.exp + JWT_LEEWAY) then
    some t.claims
  else
    none

/-- Application state together with the external collaborators every
handler uses, modelled at their interface boundaries (spec sections 1 and
6): the clock, the base64+BCS decoder, the package-lineage query, the two
signature verifiers, the dry-run RPC, the IBE and ElGamal primitives, the
per-boot ephemeral signing key, and the profile subsystem. -/
structure AppState where
  now : Nat
  latestCheckpointTs : Nat
  referenceGasPrice : Nat
  masterKey : Bytes
  citadelPackage : String
  decodePtb : String → Option Ptb
  fetchPkg : Bytes → Except InternalError (Bytes × Bytes)
  walletSigOk : Bytes → SignedMsg → Nat → Bool
  sessionSigOk : Bytes → SignedReq → Bytes → Bool
  dryRun : Nat → ValidPtb → Nat → Except Unit DryRunRes
  ibeExtract : Bytes → KeyId → Bytes
  elgamalEncrypt : Nat → Bytes → Bytes → Bytes
  ephSign : Bytes → Bytes
  b64Encode : Bytes → String
  addrToString : Nat → String
  parsePassportId : Bytes → Option Nat
  profileFor : Nat → Option Profile
  sessionInsertOk : Bool

/-- Modelled from the spec: `externals.rs` is not present under the
sources.  `duration_since ts` is the signed number of milliseconds between
the current epoch time and `ts` (spec section 4.4 compares
`now - latest_checkpoint_timestamp` against the staleness bound). -/
def duration_since (now ts : Nat) : Int := (now : Int) - (ts : Int)

/-- `AppState::check_full_node_is_fresh` (`lib.rs`): reject with `Failure`
when the latest checkpoint timestamp is older than the allowed staleness. -/
def check_full_node_is_fresh (st : AppState) (allowedStalenessMs : Nat) :
    Except InternalError Unit :=
  if duration_since st.now st.latestCheckpointTs > (allowedStalenessMs : Int) then
    .error .Failure
  else
    .ok ()

/-- `check_signature` (`keys.rs`): certificate validity window first, then
the wallet signature over the canonical message, then the session
signature over the request.  The separate clock reads of the source are
modelled as the single `st.now`.  The subtraction is `Nat` subtraction
guarded, exactly as in the source, by the explicit underflow check
`now < 60000 * ttl_min`. -/
def check_signature (st : AppState) (pkg_id : Bytes) (ptb : Ptb)
    (enc_key enc_verification_key : Bytes) (session_sig : Bytes)
    (cert : Certificate) : Except InternalError Unit :=
  if cert.ttl_min > SESSION_KEY_TTL_MAX
      ∨ cert.creation_time > st.now
      ∨ st.now < 60000 * cert.ttl_min
      ∨ st.now - 60000 * cert.ttl_min > cert.creation_time then
    .error .InvalidCertificate
  else if st.walletSigOk cert.signature
      (signed_message pkg_id cert.session_vk cert.creation_time cert.ttl_min)
      cert.user then
    if st.sessionSigOk cert.session_vk
        (signed_request ptb enc_key enc_verification_key) session_sig then
      .ok ()
    else
      .error .InvalidSessionSignature
  else
    .error .InvalidSignature

/-- `check_policy` (`keys.rs`): dry-run the transaction through the full
node; an RPC failure is `Failure`, an error execution status is
`NoAccess`, success approves release. -/
def check_policy (st : AppState) (sender : Nat) (vptb : ValidPtb)
    (gas_price : Nat) : Except InternalError Unit :=
  match st.dryRun sender vptb gas_price with
  | .error _ => .error .Failure
  | .ok res => if res.statusIsErr then .error .NoAccess else .ok ()

/-- `check_request` (`keys.rs`): base64+BCS decode, shape validation,
package-lineage resolution and version gate, signature checks, policy
check, then the full key ids prefixed with the first deployed package id.
Metrics and logging are observability only and are not modelled. -/
def check_request (st : AppState) (ptb_str : String)
    (enc_key enc_verification_key : Bytes) (request_signature : Bytes)
    (certificate : Certificate) (gas_price : Nat) :
    Except InternalError (List KeyId) :=
  match st.decodePtb ptb_str with
  | none => .error .InvalidPTB
  | some ptb =>
    match ValidPtb.tryFrom ptb with
    | .error e => .error e
    | .ok valid_ptb =>
      match st.fetchPkg valid_ptb.pkgId with
      | .error e => .error e
      | .ok (first_pkg_id, last_pkg_id) =>
        if valid_ptb.pkgId ≠ last_pkg_id then
          .error .OldPackageVersion
        else
          match check_signature st first_pkg_id ptb enc_key
              enc_verification_key request_signature certificate with
          | .error e => .error e
          | .ok _ =>
            match check_policy st certificate.user valid_ptb gas_price with
            | .error e => .error e
            | .ok _ => .ok (valid_ptb.full_ids first_pkg_id)

/-- One entry of the response (`keys.rs`, struct `DecryptionKey`). -/
structure DecryptionKey where
  id : KeyId
  encrypted_key : Bytes
  deriving DecidableEq, Repr

/-- Response of the fetch-key endpoint (`keys.rs`,
struct `FetchKeyResponse`). -/
structure FetchKeyResponse where
  decryption_keys : List DecryptionKey
  deriving DecidableEq, Repr

/-- Encrypt one derived key per id; the thread-local RNG of the source is
modelled as a seed advanced by one per encryption, so every item uses
fresh randomness. -/
def encryptIds (st : AppState) (enc_key : Bytes) (rng : Nat) :
    List KeyId → List DecryptionKey
  | [] => []
  | id :: rest =>
    { id := id,
      encrypted_key :=
        st.elgamalEncrypt rng (st.ibeExtract st.masterKey id) enc_key }
      :: encryptIds st enc_key (rng + 1) rest

/-- `create_response` (`keys.rs`): one ElGamal-encrypted IBE extraction per
requested id, under the caller's encryption key. -/
def create_response (st : AppState) (ids : List KeyId) (enc_key : Bytes)
    (rng : Nat) : FetchKeyResponse :=
  ⟨encryptIds st enc_key rng ids⟩

/-- Request of the fetch-key endpoint (`keys.rs`,
struct `FetchKeyRequest`). -/
structure FetchKeyRequest where
  ptb : String
  enc_key : Bytes
  enc_verification_key : Bytes
  request_signature : Bytes
  certificate : Certificate

/-- `handle_fetch_key` (`keys.rs`): freshness guard first, then the full
request check, then the encrypted response. -/
def handle_fetch_key (st : AppState) (payload : FetchKeyRequest) (rng : Nat) :
    Except InternalError FetchKeyResponse :=
  match check_full_node_is_fresh st ALLOWED_STALENESS_MS with
  | .error e => .error e
  | .ok _ =>
    match check_request st payload.ptb payload.enc_key
        payload.enc_verification_key payload.request_signature
        payload.certificate st.referenceGasPrice with
    | .error e => .error e
    | .ok full_id => .ok (create_response st full_id payload.enc_key rng)

/-- Fixed constant message whose self-signature is the JWT secret
(`session_login.rs`, the bytes of `jwt_secret`). -/
def jwtSecretMsg : Bytes := [106, 119, 116, 95, 115, 101, 99, 114, 101, 116]

/-- Response of the session-token endpoint (`session_login.rs`,
struct `SessionTokenResponse`). -/
structure SessionTokenResponse where
  auth_token : Jwt
  expires_at : Nat
  profile : Option Profile
  deriving DecidableEq, Repr

/-- `create_session_token_response` (`session_login.rs`): the expiry is the
minting-time clock plus the certificate ttl, the claims embed the
certificate fields, and the HS256 secret is the ephemeral keypair's
signature over the fixed message. -/
def create_session_token_response (st : AppState) (certificate : Certificate)
    (profile : Option Profile) : SessionTokenResponse :=
  let current_time := st.now
  let current_time_secs := current_time / 1000
  let expires_at := current_time + certificate.ttl_min * 60000
  let expires_at_secs := expires_at / 1000
  let claims : TokenClaims :=
    { iss := "catastrophe",
      sub := st.addrToString certificate.user,
      exp := expires_at_secs,
      iat := current_time_secs,
      profile := profile,
      user_address := certificate.user,
      session_vk := st.b64Encode certificate.session_vk,
      creation_time := certificate.creation_time,
      ttl_min := certificate.ttl_min }
  let secret := st.ephSign jwtSecretMsg
  { auth_token := jwtEncode secret claims,
    expires_at := expires_at,
    profile := none }

/-- `decode_token` (`session_login.rs`): derive the same secret by signing
the same fixed message, then decode with issuer and expiry validation.
The decode-time clock consulted by the library is passed explicitly. -/
def decode_token (st : AppState) (nowSecs : Nat) (token : Jwt) :
    Except InternalError TokenClaims :=
  match jwtDecode nowSecs (st.ephSign jwtSecretMsg) "catastrophe" true token with
  | some claims => .ok claims
  | none => .error .InvalidToken

/-- The fully qualified function name `handle_session_token_core` requires
(`session_login.rs`). -/
def valid_function (st : AppState) : String :=
  st.citadelPackage ++ "::" ++ "citadel" ++ "::" ++ "seal_approve_verify_nexus_passport"

/-- Outcome of a handler run, with `panic` marking a reached `unwrap`
failure. -/
inductive Outcome (α : Type) where
  | panic
  | err (e : InternalError)
  | ok (a : α)
  deriving DecidableEq, Repr

/-- Request of the session-token endpoint (`session_login.rs`,
struct `SessionTokenRequest`). -/
structure SessionTokenRequest where
  ptb : String
  enc_key : Bytes
  enc_verification_key : Bytes
  request_signature : Bytes
  certificate : Certificate

/-- `handle_session_token_core` (`session_login.rs`): freshness guard,
full request check, re-parse of the same ptb string with two `unwrap`
calls (modelled as `panic`), function-name gate, passport extraction,
profile lookup (modelled at its interface, avatar generation folded into
it), token minting and session insertion. -/
def handle_session_token_core (st : AppState) (payload : SessionTokenRequest) :
    Outcome SessionTokenResponse :=
  match check_full_node_is_fresh st ALLOWED_STALENESS_MS with
  | .error e => .err e
  | .ok _ =>
    match check_request st payload.ptb payload.enc_key
        payload.enc_verification_key payload.request_signature
        payload.certificate st.referenceGasPrice with
    | .error e => .err e
    | .ok _ =>
      match st.decodePtb payload.ptb with
      | none => .err .InvalidPTB
      | some ptb =>
        match ValidPtb.tryFrom ptb with
        | .error _ => .panic
        | .ok valid_ptb =>
          if valid_ptb.fullFunction ≠ valid_function st then
            .err .InvalidPTB
          else
            match valid_ptb.innerIds.head? with
            | none => .panic
            | some idBytes =>
              match st.parsePassportId idBytes with
              | none => .err .InvalidPTB
              | some passportId =>
                if st.sessionInsertOk then
                  match st.profileFor passportId with
                  | some p =>
                    .ok { create_session_token_response st
                            payload.certificate (some p) with
                          profile := some p }
                  | none =>
                    .ok (create_session_token_response st
                          payload.certificate none)
                else
                  .err .Failure

/-- Visible-ASCII predicate of the http crate's `HeaderValue::to_str`
(bytes 32 to 126, and horizontal tab). -/
def is_visible_ascii (b : Nat) : Bool := decide ((32 ≤ b ∧ b < 127) ∨ b = 9)

/-- `HeaderValue::to_str` of the http crate, modelled at its interface:
succeeds exactly when every byte is visible ASCII, yielding the characters. -/
def header_to_str (v : Bytes) : Option (List Char) :=
  if v.all is_visible_ascii then some (v.map Char.ofNat) else none

/-- The exact case-sensitive bearer marker, the seven characters of
"Bearer " including its single trailing space. -/
def bearerTag : List Char := ['B', 'e', 'a', 'r', 'e', 'r', ' ']

/-- `extract_token_from_headers` (`session_login.rs`); the header map is
modelled by its `Authorization` entry. -/
def extract_token_from_headers (authorization : Option Bytes) :
    Except InternalError (List Char) :=
  match authorization with
  | none => .error .MissingAuthToken
  | some v =>
    match header_to_str v with
    | none => .error .InvalidAuthHeader
    | some s =>
      if bearerTag.isPrefixOf s then .ok (s.drop 7)
      else .error .InvalidAuthHeader

/-! ### Concrete instances used by witnesses and counterexamples -/

/-- Concrete well-formed transaction block used by the witnesses. -/
def ptb0 : Ptb :=
  { pkgId := [1], pkgStr := "0x1", moduleName := "citadel",
    funcName := "seal_approve_verify_nexus_passport", idArgs := [[7]],
    shapeOk := true }

/-- Concrete happy-path environment used by the witnesses: a fresh node,
a decodable well-formed transaction, a lineage whose latest version is the
one named, passing signatures and a successful dry run. -/
def stOk : AppState :=
  { now := 1700000000000
    latestCheckpointTs := 1700000000000
    referenceGasPrice := 1000
    masterKey := [3]
    citadelPackage := "0x1"
    decodePtb := fun s => if s = "PTB" then some ptb0 else none
    fetchPkg := fun p => if p = [1] then .ok ([9], [1]) else .error .InvalidPackage
    walletSigOk := fun _ _ _ => true
    sessionSigOk := fun _ _ _ => true
    dryRun := fun _ _ _ => .ok ⟨false⟩
    ibeExtract := fun mk id => mk ++ id
    elgamalEncrypt := fun r k pk => r :: (k ++ pk)
    ephSign := fun m => 0 :: m
    b64Encode := fun b => toString b
    addrToString := fun a => toString a
    parsePassportId := fun b => some (b.foldl (fun acc x => acc * 256 + x) 0)
    profileFor := fun _ => some 42
    sessionInsertOk := true }

/-- Concrete certificate valid at `stOk`'s clock. -/
def certOk : Certificate :=
  { user := 5, session_vk := [2], creation_time := 1700000000000,
    ttl_min := 5, signature := [4] }

/-- Concrete fetch-key request accepted by `stOk`. -/
def reqOk : FetchKeyRequest :=
  { ptb := "PTB", enc_key := [11], enc_verification_key := [12],
    request_signature := [13], certificate := certOk }

/-- Concrete session-token request accepted by `stOk`. -/
def sessReqOk : SessionTokenRequest :=
  { ptb := "PTB", enc_key := [11], enc_verification_key := [12],
    request_signature := [13], certificate := certOk }

/-- Environment that is simultaneously stale and unable to decode any
transaction, used to exhibit the actual stage order. -/
def stStale : AppState :=
  { stOk with latestCheckpointTs := 0, decodePtb := fun _ => none }

/-- Environment identical to `stOk` except that the clock stands 1000 ms
after `certOk`'s creation time (the checkpoint timestamp moves with it, so
the node is fresh); the certificate is still well inside its validity
window, so the session-token request succeeds. -/
def stLate : AppState :=
  { stOk with now := 1700000001000, latestCheckpointTs := 1700000001000 }

/-! ### Helper lemmas -/

/-- A successfully validated transaction always carries at least one
identity argument. -/
theorem tryFrom_ok_innerIds_ne_nil {p : Ptb} {vp : ValidPtb}
    (h : ValidPtb.tryFrom p = .ok vp) : vp.innerIds ≠ [] := by
  unfold ValidPtb.tryFrom at h
  split at h
  · rename_i hc
    cases h
    exact hc.2.2
  · cases h

/-- Inversion for a successful `check_request`: success pins down every
stage — decode, shape, lineage, version gate, signatures and policy — and
determines the returned key ids. -/
theorem check_request_ok_inv {st : AppState} {ptb_str : String}
    {ek evk rs : Bytes} {cert : Certificate} {gas : Nat} {ids : List KeyId}
    (h : check_request st ptb_str ek evk rs cert gas = .ok ids) :
    ∃ ptb vp first_pkg last_pkg,
      st.decodePtb ptb_str = some ptb ∧
      ValidPtb.tryFrom ptb = .ok vp ∧
      st.fetchPkg vp.pkgId = .ok (first_pkg, last_pkg) ∧
      vp.pkgId = last_pkg ∧
      check_signature st first_pkg ptb ek evk rs cert = .ok () ∧
      check_policy st cert.user vp gas = .ok () ∧
      ids = vp.full_ids first_pkg := by
  unfold check_request at h
  cases h1 : st.decodePtb ptb_str with
  | none => simp only [h1] at h; exact Except.noConfusion h
  | some ptb =>
    simp only [h1] at h
    cases h2 : ValidPtb.tryFrom ptb with
    | error e => simp only [h2] at h; exact Except.noConfusion h
    | ok vp =>
      simp only [h2] at h
      cases h3 : st.fetchPkg vp.pkgId with
      | error e => simp only [h3] at h; exact Except.noConfusion h
      | ok pr =>
        obtain ⟨first_pkg, last_pkg⟩ := pr
        simp only [h3] at h
        by_cases h4 : vp.pkgId = last_pkg
        · rw [if_neg (by simp [h4])] at h
          cases h5 : check_signature st first_pkg ptb ek evk rs cert with
          | error e => simp only [h5] at h; exact Except.noConfusion h
          | ok u =>
            obtain ⟨⟩ := u
            simp only [h5] at h
            cases h6 : check_policy st cert.user vp gas with
            | error e => simp only [h6] at h; exact Except.noConfusion h
            | ok u' =>
              obtain ⟨⟩ := u'
              simp only [h6, Except.ok.injEq] at h
              exact ⟨ptb, vp, first_pkg, last_pkg, rfl, h2, h3, h4, h5, h6, h.symm⟩
        · rw [if_pos (by simpa using h4)] at h
          exact Except.noConfusion h

/-- `handle_session_token_core` never reaches either `unwrap`. -/
theorem handle_session_token_core_no_panic (st : AppState)
    (payload : SessionTokenRequest) :
    ¬ handle_session_token_core st payload = .panic := by
  intro h
  unfold handle_session_token_core at h
  cases hf : check_full_node_is_fresh st ALLOWED_STALENESS_MS with
  | error e => simp only [hf] at h; exact Outcome.noConfusion h
  | ok u =>
    simp only [hf] at h
    cases hcr : check_request st payload.ptb payload.enc_key
        payload.enc_verification_key payload.request_signature
        payload.certificate st.referenceGasPrice with
    | error e => simp only [hcr] at h; exact Outcome.noConfusion h
    | ok ids =>
      simp only [hcr] at h
      obtain ⟨ptb, vp, first_pkg, last_pkg, h1, h2, -, -, -, -, -⟩ :=
        check_request_ok_inv hcr
      simp only [h1, h2] at h
      by_cases hfn : vp.fullFunction = valid_function st
      · rw [if_neg (by simp [hfn])] at h
        cases hh : vp.innerIds.head? with
        | none =>
          exact tryFrom_ok_innerIds_ne_nil h2 (List.head?_eq_none_iff.mp hh)
        | some idBytes =>
          simp only [hh] at h
          cases hp : st.parsePassportId idBytes with
          | none => simp only [hp] at h; exact Outcome.noConfusion h
          | some pid =>
            simp only [hp] at h
            by_cases hins : st.sessionInsertOk = true
            · rw [if_pos hins] at h
              cases hpr : st.profileFor pid with
              | none => simp only [hpr] at h; exact Outcome.noConfusion h
              | some p => simp only [hpr] at h; exact Outcome.noConfusion h
            · rw [if_neg hins] at h
              exact Outcome.noConfusion h
      · rw [if_pos hfn] at h
        exact Outcome.noConfusion h

/-! ### Claims -/

/-- C1.  Policy evaluation is fail-closed: a failing dry-run RPC yields
`Failure`, a completed dry run whose simulated execution effects report an
error status yields `NoAccess`, approval happens only on a reported
success, and `check_request` issues key ids only when the simulation
completed and succeeded. -/
theorem C1_policy_fail_closed :
    (∀ (st : AppState) (sender : Nat) (vptb : ValidPtb) (gas : Nat),
      (st.dryRun sender vptb gas = .error () →
        check_policy st sender vptb gas = .error .Failure) ∧
      (∀ res, st.dryRun sender vptb gas = .ok res → res.statusIsErr = true →
        check_policy st sender vptb gas = .error .NoAccess) ∧
      (check_policy st sender vptb gas = .ok () →
        ∃ res, st.dryRun sender vptb gas = .ok res ∧ res.statusIsErr = false)) ∧
    (∀ (st : AppState) (ptb_str : String) (ek evk rs : Bytes)
        (cert : Certificate) (gas : Nat) (ids : List KeyId),
      check_request st ptb_str ek evk rs cert gas = .ok ids →
      ∃ vp res, st.dryRun cert.user vp gas = .ok res ∧
        res.statusIsErr = false) := by
  constructor
  · intro st sender vptb gas
    refine ⟨fun h => by simp [check_policy, h],
      fun res h hs => by simp [check_policy, h, hs], fun h => ?_⟩
    unfold check_policy at h
    cases hd : st.dryRun sender vptb gas with
    | error e => simp only [hd] at h; exact Except.noConfusion h
    | ok res =>
      simp only [hd] at h
      cases hs : res.statusIsErr
      · exact ⟨res, rfl, hs⟩
      · rw [if_pos hs] at h; exact Except.noConfusion h
  · intro st ptb_str ek evk rs cert gas ids h
    obtain ⟨ptb, vp, first_pkg, last_pkg, -, -, -, -, -, h6, -⟩ :=
      check_request_ok_inv h
    unfold check_policy at h6
    cases hd : st.dryRun cert.user vp gas with
    | error e => simp only [hd] at h6; exact Except.noConfusion h6
    | ok res =>
      simp only [hd] at h6
      cases hs : res.statusIsErr
      · exact ⟨vp, res, hd, hs⟩
      · rw [if_pos hs] at h6; exact Except.noConfusion h6

/-- C1 witness at the concrete happy-path environment. -/
theorem C1_policy_fail_closed_witness :
    ∃ vp res, stOk.dryRun certOk.user vp 1000 = .ok res ∧
      res.statusIsErr = false :=
  C1_policy_fail_closed.2 stOk "PTB" [11] [12] [13] certOk 1000 [[9, 7]] (by rfl)

/-- C2.  Certificate validity window: reading the claim's clock difference
`now - ttl_min·60000` as the u64 arithmetic of the source (64-bit wrapping
subtraction, which the source realises as a guarded `u64` subtraction),
`check_signature` rejects with `InvalidCertificate` exactly when `ttl_min`
exceeds 10, or `creation_time` exceeds the current epoch time, or that
difference exceeds `creation_time`; in particular, at a present-day clock,
a certificate with `ttl_min = 10` and `creation_time = now` passes the
certificate-validity check, one with `ttl_min = 11` is rejected, and one
whose creation time is one millisecond in the future is rejected. -/
theorem C2_certificate_validity_window :
    (∀ (st : AppState) (pkg : Bytes) (ptb : Ptb) (ek evk sig : Bytes)
        (cert : Certificate),
      st.now < 2 ^ 64 → cert.creation_time < 2 ^ 64 → cert.ttl_min < 2 ^ 16 →
      (check_signature st pkg ptb ek evk sig cert = .error .InvalidCertificate ↔
        (cert.ttl_min > 10 ∨ cert.creation_time > st.now ∨
          (st.now + 2 ^ 64 - 60000 * cert.ttl_min) % 2 ^ 64 >
            cert.creation_time))) ∧
    check_signature stOk [1] ptb0 [] [] []
      { user := 5, session_vk := [2], creation_time := 1700000000000,
        ttl_min := 10, signature := [4] } = .ok () ∧
    check_signature stOk [1] ptb0 [] [] []
      { user := 5, session_vk := [2], creation_time := 1700000000000,
        ttl_min := 11, signature := [4] } = .error .InvalidCertificate ∧
    check_signature stOk [1] ptb0 [] [] []
      { user := 5, session_vk := [2], creation_time := 1700000000001,
        ttl_min := 10, signature := [4] } = .error .InvalidCertificate := by
  refine ⟨?_, by rfl, by rfl, by rfl⟩
  intro st pkg ptb ek evk sig cert hn hc ht
  have h64 : (2 : Nat) ^ 64 = 18446744073709551616 := by norm_num
  have h16 : (2 : Nat) ^ 16 = 65536 := by norm_num
  rw [h64] at hn ⊢
  rw [h64] at hc
  rw [h16] at ht
  have hcond : (cert.ttl_min > SESSION_KEY_TTL_MAX ∨
      cert.creation_time > st.now ∨
      st.now < 60000 * cert.ttl_min ∨
      st.now - 60000 * cert.ttl_min > cert.creation_time) ↔
      (cert.ttl_min > 10 ∨ cert.creation_time > st.now ∨
        (st.now + 18446744073709551616 - 60000 * cert.ttl_min) %
          18446744073709551616 > cert.creation_time) := by
    unfold SESSION_KEY_TTL_MAX
    omega
  unfold check_signature
  by_cases hcase : cert.ttl_min > SESSION_KEY_TTL_MAX ∨
      cert.creation_time > st.now ∨
      st.now < 60000 * cert.ttl_min ∨
      st.now - 60000 * cert.ttl_min > cert.creation_time
  · rw [if_pos hcase]
    exact iff_of_true rfl (hcond.mp hcase)
  · rw [if_neg hcase]
    refine iff_of_false (fun habs => ?_) (fun hclaim => hcase (hcond.mpr hclaim))
    by_cases hw : st.walletSigOk cert.signature
        (signed_message pkg cert.session_vk cert.creation_time cert.ttl_min)
        cert.user = true
    · rw [if_pos hw] at habs
      by_cases hss : st.sessionSigOk cert.session_vk
          (signed_request ptb ek evk) sig = true
      · rw [if_pos hss] at habs
        exact Except.noConfusion habs
      · rw [if_neg hss] at habs
        exact InternalError.noConfusion (Except.error.inj habs)
    · rw [if_neg hw] at habs
      exact InternalError.noConfusion (Except.error.inj habs)

/-- C2 witness: the characterisation applied at the boundary certificate
with `ttl_min = 11`. -/
theorem C2_certificate_validity_window_witness :
    check_signature stOk [1] ptb0 [] [] []
      { user := 5, session_vk := [2], creation_time := 1700000000000,
        ttl_min := 11, signature := [4] } = .error .InvalidCertificate :=
  (C2_certificate_validity_window.1 stOk [1] ptb0 [] [] []
      { user := 5, session_vk := [2], creation_time := 1700000000000,
        ttl_min := 11, signature := [4] }
      (by norm_num [stOk]) (by norm_num) (by norm_num)).mpr
    (Or.inl (by norm_num))

/-- Environment identical to `stOk` except that the lineage's latest
version differs from the version the transaction names. -/
def stOld : AppState :=
  { stOk with
    fetchPkg := fun p => if p = [1] then .ok ([9], [2]) else .error .InvalidPackage }

/-- C3.  Package-version gating and namespace stability: a parsed
transaction naming a package id other than the latest deployed one is
rejected with `OldPackageVersion`; an accepted request's key ids are the
identity arguments prefixed with the first deployed package id (not the
one named in the transaction); hence two accepted requests with the same
identity arguments whose lineages share the first package id receive the
same key ids. -/
theorem C3_version_gate_and_namespace :
    (∀ (st : AppState) (ptb_str : String) (ek evk rs : Bytes)
        (cert : Certificate) (gas : Nat) (ptb : Ptb) (vp : ValidPtb)
        (first_pkg last_pkg : Bytes),
      st.decodePtb ptb_str = some ptb →
      ValidPtb.tryFrom ptb = .ok vp →
      st.fetchPkg vp.pkgId = .ok (first_pkg, last_pkg) →
      vp.pkgId ≠ last_pkg →
      check_request st ptb_str ek evk rs cert gas =
        .error .OldPackageVersion) ∧
    (∀ (st : AppState) (ptb_str : String) (ek evk rs : Bytes)
        (cert : Certificate) (gas : Nat) (ids : List KeyId),
      check_request st ptb_str ek evk rs cert gas = .ok ids →
      ∃ ptb vp first_pkg last_pkg,
        st.decodePtb ptb_str = some ptb ∧
        ValidPtb.tryFrom ptb = .ok vp ∧
        st.fetchPkg vp.pkgId = .ok (first_pkg, last_pkg) ∧
        ids = vp.innerIds.map (fun id => first_pkg ++ id)) ∧
    (∀ (st₁ st₂ : AppState) (s₁ s₂ : String)
        (ek₁ evk₁ rs₁ ek₂ evk₂ rs₂ : Bytes) (cert₁ cert₂ : Certificate)
        (gas₁ gas₂ : Nat) (ids₁ ids₂ : List KeyId) (ptb₁ ptb₂ : Ptb)
        (vp₁ vp₂ : ValidPtb) (first_pkg last₁ last₂ : Bytes),
      st₁.decodePtb s₁ = some ptb₁ → ValidPtb.tryFrom ptb₁ = .ok vp₁ →
      st₁.fetchPkg vp₁.pkgId = .ok (first_pkg, last₁) →
      st₂.decodePtb s₂ = some ptb₂ → ValidPtb.tryFrom ptb₂ = .ok vp₂ →
      st₂.fetchPkg vp₂.pkgId = .ok (first_pkg, last₂) →
      vp₁.innerIds = vp₂.innerIds →
      check_request st₁ s₁ ek₁ evk₁ rs₁ cert₁ gas₁ = .ok ids₁ →
      check_request st₂ s₂ ek₂ evk₂ rs₂ cert₂ gas₂ = .ok ids₂ →
      ids₁ = ids₂) := by
  refine ⟨?_, ?_, ?_⟩
  · intro st s ek evk rs cert gas ptb vp first_pkg last_pkg h1 h2 h3 h4
    unfold check_request
    simp only [h1, h2, h3]
    rw [if_pos h4]
  · intro st s ek evk rs cert gas ids h
    obtain ⟨ptb, vp, first_pkg, last_pkg, h1, h2, h3, -, -, -, hids⟩ :=
      check_request_ok_inv h
    exact ⟨ptb, vp, first_pkg, last_pkg, h1, h2, h3, hids⟩
  · intro st₁ st₂ s₁ s₂ ek₁ evk₁ rs₁ ek₂ evk₂ rs₂ cert₁ cert₂ gas₁ gas₂
      ids₁ ids₂ ptb₁ ptb₂ vp₁ vp₂ first_pkg last₁ last₂
      d₁ t₁ f₁ d₂ t₂ f₂ hinner hr₁ hr₂
    obtain ⟨pa, va, fa, la, ha1, ha2, ha3, -, -, -, hida⟩ :=
      check_request_ok_inv hr₁
    obtain ⟨pb, vb, fb, lb, hb1, hb2, hb3, -, -, -, hidb⟩ :=
      check_request_ok_inv hr₂
    have hpa : pa = ptb₁ := Option.some.inj (ha1.symm.trans d₁)
    subst hpa
    have hva : va = vp₁ := Except.ok.inj (ha2.symm.trans t₁)
    subst hva
    have hpb : pb = ptb₂ := Option.some.inj (hb1.symm.trans d₂)
    subst hpb
    have hvb : vb = vp₂ := Except.ok.inj (hb2.symm.trans t₂)
    subst hvb
    have hf1 : fa = first_pkg :=
      congrArg Prod.fst (Except.ok.inj (ha3.symm.trans f₁))
    have hf2 : fb = first_pkg :=
      congrArg Prod.fst (Except.ok.inj (hb3.symm.trans f₂))
    rw [hida, hidb, hf1, hf2]
    simp [ValidPtb.full_ids, hinner]

/-- C3 witness: a transaction naming a superseded package version is
rejected with `OldPackageVersion` at the concrete environment. -/
theorem C3_version_gate_and_namespace_witness :
    check_request stOld "PTB" [11] [12] [13] certOk 1000 =
      .error .OldPackageVersion :=
  C3_version_gate_and_namespace.1 stOld "PTB" [11] [12] [13] certOk 1000 ptb0
    ⟨[1], [[7]], "0x1::citadel::seal_approve_verify_nexus_passport"⟩ [9] [2]
    rfl rfl rfl (by decide)

/-- The id of every produced decryption key matches the requested id, in
order. -/
theorem encryptIds_map_id (st : AppState) (ek : Bytes) :
    ∀ (ids : List KeyId) (rng : Nat),
      (encryptIds st ek rng ids).map (fun d => d.id) = ids := by
  intro ids
  induction ids with
  | nil => intro rng; rfl
  | cons id rest ih =>
    intro rng
    simp [encryptIds, ih (rng + 1)]

/-- Pointwise description of the produced decryption keys. -/
theorem encryptIds_get (st : AppState) (ek : Bytes) :
    ∀ (ids : List KeyId) (rng i : Nat) (hi : i < ids.length)
      (hk : i < (encryptIds st ek rng ids).length),
      (encryptIds st ek rng ids).get ⟨i, hk⟩ =
        { id := ids.get ⟨i, hi⟩,
          encrypted_key := st.elgamalEncrypt (rng + i)
            (st.ibeExtract st.masterKey (ids.get ⟨i, hi⟩)) ek } := by
  intro ids
  induction ids with
  | nil => intro rng i hi hk; simp at hi
  | cons id rest ih =>
    intro rng i hi hk
    cases i with
    | zero => rfl
    | succ n =>
      have hi' : n < rest.length := Nat.lt_of_succ_lt_succ hi
      have hk' : n < (encryptIds st ek (rng + 1) rest).length := by
        have := Nat.lt_of_succ_lt_succ hk
        simpa [encryptIds] using hk
      have heq := ih (rng + 1) n hi' hk'
      have hgl : (encryptIds st ek rng (id :: rest)).get ⟨n + 1, hk⟩
          = (encryptIds st ek (rng + 1) rest).get ⟨n, hk'⟩ := rfl
      have harg : rng + 1 + n = rng + (n + 1) := by omega
      rw [hgl, heq, harg]
      rfl

/-- C4.  Response shape: `create_response` returns exactly one decryption
key per input id, in input order, each entry's id equal to the
corresponding input id, and each entry's encrypted key the ElGamal
encryption — under the caller's public key, with that entry's fresh
randomness — of the IBE secret extracted from the master key and that id. -/
theorem C4_response_shape :
    ∀ (st : AppState) (ids : List KeyId) (enc_key : Bytes) (rng : Nat),
      (create_response st ids enc_key rng).decryption_keys.map
        (fun d => d.id) = ids ∧
      (create_response st ids enc_key rng).decryption_keys.length =
        ids.length ∧
      ∀ (i : Nat) (hi : i < ids.length)
        (hk : i <
          (create_response st ids enc_key rng).decryption_keys.length),
        ((create_response st ids enc_key rng).decryption_keys.get
            ⟨i, hk⟩).encrypted_key =
          st.elgamalEncrypt (rng + i)
            (st.ibeExtract st.masterKey (ids.get ⟨i, hi⟩)) enc_key := by
  intro st ids enc_key rng
  refine ⟨encryptIds_map_id st enc_key ids rng, ?_, ?_⟩
  · have hlen := congrArg List.length (encryptIds_map_id st enc_key ids rng)
    simpa using hlen
  · intro i hi hk
    exact congrArg DecryptionKey.encrypted_key
      (encryptIds_get st enc_key ids rng i hi hk)

/-- C4 witness: the second entry of a concrete two-id response. -/
theorem C4_response_shape_witness :
    ((create_response stOk [[1], [2]] [5] 0).decryption_keys.get
        ⟨1, by decide⟩).encrypted_key =
      stOk.elgamalEncrypt (0 + 1)
        (stOk.ibeExtract stOk.masterKey ([[1], [2]].get ⟨1, by decide⟩)) [5] :=
  (C4_response_shape stOk [[1], [2]] [5] 0).2.2 1 (by decide) (by decide)

/-- C5 counterexample: the claim asserts that both stale-chain errors map
to HTTP 503, but the HTTP responder maps `SuiClientNotFresh` to 403; only
`Failure` maps to 503. -/
theorem C5_stale_mapping_counterexample :
    statusCode .SuiClientNotFresh = 403 ∧
    (statusCode .SuiClientNotFresh = 503) = False := by
  refine ⟨rfl, by simp [statusCode]⟩

/-- C5 amended: `Failure` maps to 503 while `SuiClientNotFresh` maps to
403; the freshness guard rejects a stale chain view with `Failure`, so the
client receives a 503 response. -/
theorem C5_stale_chain_maps_503 :
    statusCode .Failure = 503 ∧ statusCode .SuiClientNotFresh = 403 ∧
    ∀ (st : AppState) (allowed : Nat),
      duration_since st.now st.latestCheckpointTs > (allowed : Int) →
      check_full_node_is_fresh st allowed = .error .Failure ∧
      statusCode .Failure = 503 := by
  refine ⟨rfl, rfl, fun st allowed h => ⟨?_, rfl⟩⟩
  unfold check_full_node_is_fresh
  rw [if_pos h]

/-- C5 witness: the amended statement applied at the concrete stale
environment. -/
theorem C5_stale_chain_maps_503_witness :
    check_full_node_is_fresh stStale ALLOWED_STALENESS_MS = .error .Failure ∧
    statusCode .Failure = 503 :=
  C5_stale_chain_maps_503.2.2 stStale ALLOWED_STALENESS_MS (by decide)

/-- Inversion for a successful session-token run: the response carries the
token and expiry minted by `create_session_token_response`. -/
theorem handle_session_token_core_ok_inv {st : AppState}
    {payload : SessionTokenRequest} {r : SessionTokenResponse}
    (h : handle_session_token_core st payload = .ok r) :
    ∃ profile,
      r.auth_token =
        (create_session_token_response st payload.certificate
          profile).auth_token ∧
      r.expires_at =
        (create_session_token_response st payload.certificate
          profile).expires_at := by
  unfold handle_session_token_core at h
  cases hf : check_full_node_is_fresh st ALLOWED_STALENESS_MS with
  | error e => simp only [hf] at h; exact Outcome.noConfusion h
  | ok u =>
    simp only [hf] at h
    cases hcr : check_request st payload.ptb payload.enc_key
        payload.enc_verification_key payload.request_signature
        payload.certificate st.referenceGasPrice with
    | error e => simp only [hcr] at h; exact Outcome.noConfusion h
    | ok ids =>
      simp only [hcr] at h
      cases h1 : st.decodePtb payload.ptb with
      | none => simp only [h1] at h; exact Outcome.noConfusion h
      | some ptb =>
        simp only [h1] at h
        cases h2 : ValidPtb.tryFrom ptb with
        | error e => simp only [h2] at h; exact Outcome.noConfusion h
        | ok vp =>
          simp only [h2] at h
          by_cases hfn : vp.fullFunction = valid_function st
          · rw [if_neg (by simp [hfn])] at h
            cases hh : vp.innerIds.head? with
            | none => simp only [hh] at h; exact Outcome.noConfusion h
            | some idBytes =>
              simp only [hh] at h
              cases hp : st.parsePassportId idBytes with
              | none => simp only [hp] at h; exact Outcome.noConfusion h
              | some pid =>
                simp only [hp] at h
                by_cases hins : st.sessionInsertOk = true
                · rw [if_pos hins] at h
                  cases hpr : st.profileFor pid with
                  | none =>
                    simp only [hpr, Outcome.ok.injEq] at h
                    exact ⟨none, by rw [← h], by rw [← h]⟩
                  | some p =>
                    simp only [hpr, Outcome.ok.injEq] at h
                    exact ⟨some p, by rw [← h], by rw [← h]⟩
                · rw [if_neg hins] at h
                  exact Outcome.noConfusion h
          · rw [if_pos hfn] at h
            exact Outcome.noConfusion h

/-- The session-token response of the run at `stLate`. -/
def sessRespLate : SessionTokenResponse :=
  { create_session_token_response stLate certOk (some 42) with
    profile := some 42 }

/-- C6 counterexample: a session-token request that succeeds — the clock
stands 1000 ms after the certificate's creation time, well inside its
5-minute validity window, and the full flow returns `.ok` — mints a token
expiring at `now + ttl_min·60000 = 1700000301000` ms (JWT `exp` claim
1700000301 s), which is not the certificate expiry
`creation_time + ttl_min·60000 = 1700000300000` ms (1700000300 s); the
response's `expires_at` reports the token value, not the certificate one. -/
theorem C6_token_expiry_counterexample :
    handle_session_token_core stLate sessReqOk = .ok sessRespLate ∧
    sessRespLate.expires_at = 1700000301000 ∧
    sessRespLate.auth_token.claims.exp = 1700000301 ∧
    ((1700000301000 : Nat) = sessReqOk.certificate.creation_time +
      sessReqOk.certificate.ttl_min * 60000) = False ∧
    ((1700000301 : Nat) = (sessReqOk.certificate.creation_time +
      sessReqOk.certificate.ttl_min * 60000) / 1000) = False := by
  exact ⟨by rfl, rfl, rfl, eq_false (by decide), eq_false (by decide)⟩

/-- C6 amended: the minted token's expiry is the minting-time clock plus
`ttl_min` minutes — `expires_at = now + ttl_min·60000` milliseconds — the
JWT `exp` claim is that same instant in seconds, and every successful
session-token run reports exactly these values. -/
theorem C6_token_expiry :
    (∀ (st : AppState) (cert : Certificate) (profile : Option Profile),
      (create_session_token_response st cert profile).expires_at =
          st.now + cert.ttl_min * 60000 ∧
      (create_session_token_response st cert profile).auth_token.claims.exp =
          (st.now + cert.ttl_min * 60000) / 1000) ∧
    (∀ (st : AppState) (payload : SessionTokenRequest)
        (r : SessionTokenResponse),
      handle_session_token_core st payload = .ok r →
      r.expires_at = st.now + payload.certificate.ttl_min * 60000 ∧
      r.auth_token.claims.exp =
        (st.now + payload.certificate.ttl_min * 60000) / 1000) := by
  constructor
  · intro st cert profile
    exact ⟨rfl, rfl⟩
  · intro st payload r h
    obtain ⟨profile, hat, hex⟩ := handle_session_token_core_ok_inv h
    constructor
    · rw [hex]; rfl
    · rw [hat]; rfl

/-- The concrete session-token response of the happy path. -/
def sessRespOk : SessionTokenResponse :=
  { create_session_token_response stOk certOk (some 42) with
    profile := some 42 }

/-- C6 witness: the amended statement applied at the concrete happy-path
session-token run. -/
theorem C6_token_expiry_witness :
    sessRespOk.expires_at = stOk.now + sessReqOk.certificate.ttl_min * 60000 ∧
    sessRespOk.auth_token.claims.exp =
      (stOk.now + sessReqOk.certificate.ttl_min * 60000) / 1000 :=
  C6_token_expiry.2 stOk sessReqOk sessRespOk (by rfl)

/-- C7 counterexample: with a stale chain view and an undecodable
transaction, the fetch-key flow reports the freshness error `Failure`
rather than the shape error `InvalidPTB`: the freshness check runs before
shape validation — and hence before signature verification — not after
signature verification as claimed. -/
theorem C7_stage_order_counterexample :
    handle_fetch_key stStale reqOk 0 = .error .Failure ∧
    stStale.decodePtb reqOk.ptb = none ∧
    (InternalError.Failure = InternalError.InvalidPTB) = False := by
  exact ⟨rfl, rfl, by simp⟩

/-- C7 amended: the actual stage order of the fetch-key flow is the
freshness check first, then shape validation, then version resolution,
then signature verification (certificate window, wallet signature,
session signature, inside `check_signature`), then policy evaluation,
then key issuance; every stage failure terminates the request with that
stage's error. -/
theorem C7_stage_order :
    ∀ (st : AppState) (payload : FetchKeyRequest) (rng : Nat),
      (check_full_node_is_fresh st ALLOWED_STALENESS_MS = .error .Failure →
        handle_fetch_key st payload rng = .error .Failure) ∧
      (check_full_node_is_fresh st ALLOWED_STALENESS_MS = .ok () →
        (st.decodePtb payload.ptb = none →
          handle_fetch_key st payload rng = .error .InvalidPTB) ∧
        (∀ ptb vp first_pkg last_pkg,
          st.decodePtb payload.ptb = some ptb →
          ValidPtb.tryFrom ptb = .ok vp →
          st.fetchPkg vp.pkgId = .ok (first_pkg, last_pkg) →
          (vp.pkgId ≠ last_pkg →
            handle_fetch_key st payload rng = .error .OldPackageVersion) ∧
          (vp.pkgId = last_pkg →
            (∀ e, check_signature st first_pkg ptb payload.enc_key
                payload.enc_verification_key payload.request_signature
                payload.certificate = .error e →
              handle_fetch_key st payload rng = .error e) ∧
            (check_signature st first_pkg ptb payload.enc_key
                payload.enc_verification_key payload.request_signature
                payload.certificate = .ok () →
              (∀ e, check_policy st payload.certificate.user vp
                  st.referenceGasPrice = .error e →
                handle_fetch_key st payload rng = .error e) ∧
              (check_policy st payload.certificate.user vp
                  st.referenceGasPrice = .ok () →
                handle_fetch_key st payload rng =
                  .ok (create_response st (vp.full_ids first_pkg)
                    payload.enc_key rng))))) ∧
        (∀ ptb e, st.decodePtb payload.ptb = some ptb →
          ValidPtb.tryFrom ptb = .error e →
          handle_fetch_key st payload rng = .error e) ∧
        (∀ ptb vp e, st.decodePtb payload.ptb = some ptb →
          ValidPtb.tryFrom ptb = .ok vp →
          st.fetchPkg vp.pkgId = .error e →
          handle_fetch_key st payload rng = .error e)) := by
  intro st payload rng
  constructor
  · intro hf
    unfold handle_fetch_key
    simp only [hf]
  · intro hf
    refine ⟨?_, ?_, ?_, ?_⟩
    · intro hd
      unfold handle_fetch_key check_request
      simp only [hf, hd]
    · intro ptb vp first_pkg last_pkg hd ht hp
      constructor
      · intro hne
        unfold handle_fetch_key check_request
        simp only [hf, hd, ht, hp]
        rw [if_pos hne]
      · intro heq
        refine ⟨fun e hsig => ?_, fun hsig => ⟨fun e hpol => ?_, fun hpol => ?_⟩⟩
        · unfold handle_fetch_key check_request
          simp only [hf, hd, ht, hp]
          rw [if_neg (by simp [heq])]
          simp only [hsig]
        · unfold handle_fetch_key check_request
          simp only [hf, hd, ht, hp]
          rw [if_neg (by simp [heq])]
          simp only [hsig, hpol]
        · unfold handle_fetch_key check_request
          simp only [hf, hd, ht, hp]
          rw [if_neg (by simp [heq])]
          simp only [hsig, hpol]
    · intro ptb e hd ht
      unfold handle_fetch_key check_request
      simp only [hf, hd, ht]
    · intro ptb vp e hd ht hp
      unfold handle_fetch_key check_request
      simp only [hf, hd, ht, hp]

/-- C7 witness: the cascade applied end to end at the concrete happy-path
environment. -/
theorem C7_stage_order_witness :
    handle_fetch_key stOk reqOk 0 =
      .ok (create_response stOk
        (ValidPtb.full_ids
          ⟨[1], [[7]], "0x1::citadel::seal_approve_verify_nexus_passport"⟩
          [9])
        reqOk.enc_key 0) :=
  (((((C7_stage_order stOk reqOk 0).2 rfl).2.1 ptb0
      ⟨[1], [[7]], "0x1::citadel::seal_approve_verify_nexus_passport"⟩
      [9] [1] rfl rfl rfl).2 rfl).2 (by rfl)).2 (by rfl)

/-- C8.  JWT round trip under the self-derived HMAC secret: minting and
decoding both derive the secret by signing the same fixed constant
message with the server's ephemeral keypair, so a token minted by
`create_session_token_response` is, while unexpired, accepted by
`decode_token` of the same state and yields back exactly the embedded
claims (issuer, user address, session verification key, creation time,
ttl, expiry). -/
theorem C8_jwt_round_trip :
    ∀ (st : AppState) (cert : Certificate) (profile : Option Profile)
      (decodeNowSecs : Nat),
      decodeNowSecs ≤ (st.now + cert.ttl_min * 60000) / 1000 + JWT_LEEWAY →
      decode_token st decodeNowSecs
          (create_session_token_response st cert profile).auth_token =
        .ok { iss := "catastrophe",
              sub := st.addrToString cert.user,
              exp := (st.now + cert.ttl_min * 60000) / 1000,
              iat := st.now / 1000,
              profile := profile,
              user_address := cert.user,
              session_vk := st.b64Encode cert.session_vk,
              creation_time := cert.creation_time,
              ttl_min := cert.ttl_min } := by
  intro st cert profile decodeNowSecs ht
  have hdec : jwtDecode decodeNowSecs (st.ephSign jwtSecretMsg) "catastrophe"
      true (create_session_token_response st cert profile).auth_token =
      some { iss := "catastrophe",
             sub := st.addrToString cert.user,
             exp := (st.now + cert.ttl_min * 60000) / 1000,
             iat := st.now / 1000,
             profile := profile,
             user_address := cert.user,
             session_vk := st.b64Encode cert.session_vk,
             creation_time := cert.creation_time,
             ttl_min := cert.ttl_min } := by
    unfold jwtDecode
    rw [if_pos ⟨rfl, rfl, fun _ => ht⟩]
    rfl
  unfold decode_token
  rw [hdec]

/-- C8 witness: the round trip at the concrete environment, decoded at
clock zero. -/
theorem C8_jwt_round_trip_witness :
    decode_token stOk 0
        (create_session_token_response stOk certOk (some 7)).auth_token =
      .ok { iss := "catastrophe",
            sub := stOk.addrToString certOk.user,
            exp := (stOk.now + certOk.ttl_min * 60000) / 1000,
            iat := stOk.now / 1000,
            profile := some 7,
            user_address := certOk.user,
            session_vk := stOk.b64Encode certOk.session_vk,
            creation_time := certOk.creation_time,
            ttl_min := certOk.ttl_min } :=
  C8_jwt_round_trip stOk certOk (some 7) 0 (Nat.zero_le _)

/-- C9.  No panic after validation: the session-token flow never reaches
either `unwrap` — for every environment and request the outcome is a
typed error or a response, never `panic`: the deterministic re-parse of a
ptb string `check_request` accepted decodes and validates again, and an
accepted transaction always carries at least one identity argument. -/
theorem C9_session_token_no_panic :
    ∀ (st : AppState) (payload : SessionTokenRequest),
      (∃ e, handle_session_token_core st payload = .err e) ∨
      (∃ r, handle_session_token_core st payload = .ok r) := by
  intro st payload
  cases hv : handle_session_token_core st payload with
  | panic => exact absurd hv (handle_session_token_core_no_panic st payload)
  | err e => exact Or.inl ⟨e, rfl⟩
  | ok r => exact Or.inr ⟨r, rfl⟩

/-- C10.  Bearer-token extraction: `MissingAuthToken` exactly when there
is no Authorization header; `InvalidAuthHeader` exactly when the header
value is not visible ASCII or does not begin with the exact
case-sensitive seven-character marker with its single space; otherwise
the remainder of the header after those seven characters, which may be
empty. -/
theorem C10_bearer_extraction :
    (∀ (authorization : Option Bytes),
      (extract_token_from_headers authorization = .error .MissingAuthToken ↔
        authorization = none) ∧
      (∀ v, authorization = some v →
        (extract_token_from_headers authorization =
            .error .InvalidAuthHeader ↔
          (v.all is_visible_ascii = false ∨
            (v.all is_visible_ascii = true ∧
              bearerTag.isPrefixOf (v.map Char.ofNat) = false)))) ∧
      (∀ v, authorization = some v → v.all is_visible_ascii = true →
        bearerTag.isPrefixOf (v.map Char.ofNat) = true →
        extract_token_from_headers authorization =
          .ok ((v.map Char.ofNat).drop 7))) ∧
    extract_token_from_headers (some [66, 101, 97, 114, 101, 114, 32]) =
      .ok [] := by
  constructor
  · intro authorization
    refine ⟨?_, ?_, ?_⟩
    · cases authorization with
      | none => simp [extract_token_from_headers]
      | some v =>
        unfold extract_token_from_headers header_to_str
        cases hv : v.all is_visible_ascii
        · simp [hv]
        · cases hp : bearerTag.isPrefixOf (v.map Char.ofNat)
          · simp [hv, hp]
          · simp [hv, hp]
    · intro v hv
      subst hv
      unfold extract_token_from_headers header_to_str
      cases ha : v.all is_visible_ascii
      · simp [ha]
      · cases hp : bearerTag.isPrefixOf (v.map Char.ofNat)
        · simp [ha, hp]
        · simp [ha, hp]
    · intro v hv ha hp
      subst hv
      unfold extract_token_from_headers header_to_str
      simp [ha, hp]
  · rfl

/-- C10 witness: the success clause applied at the concrete header value
whose characters read as the marker followed by one character. -/
theorem C10_bearer_extraction_witness :
    extract_token_from_headers
        (some [66, 101, 97, 114, 101, 114, 32, 120]) =
      .ok (([66, 101, 97, 114, 101, 114, 32, 120].map Char.ofNat).drop 7) :=
  (C10_bearer_extraction.1 (some [66, 101, 97, 114, 101, 114, 32, 120])).2.2
    [66, 101, 97, 114, 101, 114, 32, 120] rfl (by rfl) (by rfl)

end Citadel
